import Mathlib

/-!
Shallow embedding of the mutant execution and classification engine of a
Java mutation-testing project: the result data model (`util_classes.py`),
the differential classifier and summarizer (`mutant_tester.py`), and the
compile-and-test pipeline (`test_runner.py`).  Python dictionaries are
modelled as insertion-ordered association lists, machine reals as `Rat`,
and raised exceptions as `Except String`.
-/

namespace MutationEngine

/-- The `TestResult` dataclass from `util_classes.py`: one executed test. -/
structure TestResult where
  test_name : String
  test_unique_id : String
  is_passed : Bool
  error_message : Option String
deriving DecidableEq, Repr

/-- The `TestClassResult` dataclass from `util_classes.py`. -/
structure TestClassResult where
  test_class_name : String
  passed_tests : Nat
  failed_tests : Nat
  total_tests : Nat
  test_results : List TestResult
deriving DecidableEq, Repr

/-- The `TestSuiteResult` dataclass from `util_classes.py`: the result
document of one run (baseline or mutant). -/
structure TestSuiteResult where
  timestamp : String
  test_classes : List TestClassResult
  compiled : Bool
  compile_error : Option String
deriving DecidableEq, Repr

/-- The `MutantStatus` enum from `mutant_tester.py`. -/
inductive MutantStatus where
  | LIVE
  | KILLED
  | STILLBORN
  | TRIVIAL
deriving DecidableEq, Repr

/-- `MutantStatus.value`: the string payload of each enum member. -/
def MutantStatus.value : MutantStatus → String
  | .LIVE => "live"
  | .KILLED => "killed"
  | .STILLBORN => "stillborn"
  | .TRIVIAL => "trivial"

/-- `ORIGINAL_SRC_TEST_RESULTS_NAME` from `mutant_tester.py`: the reserved
run id of the baseline. -/
def ORIGINAL_SRC_TEST_RESULTS_NAME : String := "original"

/-- The dictionary returned by `read_test_results`, modelled as an
insertion-ordered association list from run id to result document.  A
Python dict has no duplicate keys; theorems that need this take a
`Nodup` hypothesis on the keys. -/
abbrev RunSet := List (String × TestSuiteResult)

/-- `d.get(k)` on a Python dict modelled as an association list: the value
of the first (and, for genuine dicts, only) entry with the given key. -/
def lookupA {α : Type} : List (String × α) → String → Option α
  | [], _ => none
  | e :: rest, k => if e.1 == k then some e.2 else lookupA rest k

/-- `dict.get(runId)` on the run set. -/
def getRun (rs : RunSet) (runId : String) : Option TestSuiteResult :=
  lookupA rs runId

/-- The inner loop of `MutantTester._evaluate_mutant` over the tests of one
mutant class: for each mutant test, look up the first baseline test with
the same `test_unique_id` in the matched baseline class; unmatched tests
are skipped, a matched pair bumps `total_tests` and, when the `is_passed`
flags differ, `different_results`.  The accumulator is
`(different_results, total_tests)`. -/
def testPairCounts (original_tests : List TestResult) :
    List TestResult → Nat × Nat → Nat × Nat
  | [], acc => acc
  | mt :: rest, acc =>
    match original_tests.find? (fun t => t.test_unique_id == mt.test_unique_id) with
    | none => testPairCounts original_tests rest acc
    | some ot =>
      testPairCounts original_tests rest
        (if mt.is_passed != ot.is_passed then acc.1 + 1 else acc.1, acc.2 + 1)

/-- The outer loop of `MutantTester._evaluate_mutant` over the mutant's
test classes: each mutant class is matched to the first baseline class
with the same `test_class_name`; classes with no counterpart are
skipped. -/
def classPairCounts (original_classes : List TestClassResult) :
    List TestClassResult → Nat × Nat → Nat × Nat
  | [], acc => acc
  | mc :: rest, acc =>
    match original_classes.find? (fun c => c.test_class_name == mc.test_class_name) with
    | none => classPairCounts original_classes rest acc
    | some oc =>
      classPairCounts original_classes rest (testPairCounts oc.test_results mc.test_results acc)

/-- `(different_results, total_tests)` as computed by the comparison loops
of `MutantTester._evaluate_mutant`, starting from `(0, 0)`. -/
def pairCounts (original_classes mutant_classes : List TestClassResult) : Nat × Nat :=
  classPairCounts original_classes mutant_classes (0, 0)

/-- `MutantTester._evaluate_mutant`: classify one mutant id against the run
set.  A missing result document or `compiled == False` yields `STILLBORN`
at once; a missing baseline raises `ValueError` (modelled as
`Except.error`); otherwise the differential counts decide between `LIVE`,
`TRIVIAL` and `KILLED`. -/
def evaluate_mutant (mutation_id : String) (test_results : RunSet) :
    Except String MutantStatus :=
  match getRun test_results mutation_id with
  | none => Except.ok MutantStatus.STILLBORN
  | some mutant_results =>
    if mutant_results.compiled = false then Except.ok MutantStatus.STILLBORN
    else
      match getRun test_results ORIGINAL_SRC_TEST_RESULTS_NAME with
      | none => Except.error "Original test results not found"
      | some original_results =>
        let counts := pairCounts original_results.test_classes mutant_results.test_classes
        if counts.1 = 0 then Except.ok MutantStatus.LIVE
        else if counts.1 = counts.2 then Except.ok MutantStatus.TRIVIAL
        else Except.ok MutantStatus.KILLED

/-- `d[k] = v` on a Python dict modelled as an association list: overwrite
the existing entry for `k` or append a fresh one, preserving insertion
order. -/
def setA {α : Type} : List (String × α) → String → α → List (String × α)
  | [], k, v => [(k, v)]
  | e :: rest, k, v => if e.1 == k then (k, v) :: rest else e :: setA rest k v

/-- `d[k] = d.get(k, 0) + 1`: the increment pattern used for `test_impact`
in `get_mutation_summary`. -/
def bumpA (d : List (String × Nat)) (k : String) : List (String × Nat) :=
  setA d k ((lookupA d k).getD 0 + 1)

/-- The `test_impact` update of `get_mutation_summary` for one killed or
trivial mutant: every test of the mutant's result document with
`is_passed == False` bumps the counter of `"ClassName#testName"`. -/
def impactUpdate (impact : List (String × Nat)) (suite : TestSuiteResult) :
    List (String × Nat) :=
  suite.test_classes.foldl
    (fun im c =>
      c.test_results.foldl
        (fun im2 t =>
          if t.is_passed = false then
            bumpA im2 (c.test_class_name ++ "#" ++ t.test_name)
          else im2)
        im)
    impact

/-- The mutable per-loop state of `get_mutation_summary`: the four status
counters, the `test_impact` dict and the `mutation_status` dict. -/
structure SummaryAcc where
  live : Nat
  killed : Nat
  stillborn : Nat
  trivial : Nat
  test_impact : List (String × Nat)
  mutation_status : List (String × String)
deriving DecidableEq, Repr

/-- The empty state the loop of `get_mutation_summary` starts from. -/
def SummaryAcc.init : SummaryAcc := ⟨0, 0, 0, 0, [], []⟩

/-- One iteration of the mutant loop of `get_mutation_summary`, after
`_evaluate_mutant` returned `st` for the entry `e`: bump the status
counter, record the status string, and—for killed or trivial mutants
only—update `test_impact` from the mutant's result document. -/
def summaryStep (acc : SummaryAcc) (e : String × TestSuiteResult) (st : MutantStatus) :
    SummaryAcc :=
  { live := if st = MutantStatus.LIVE then acc.live + 1 else acc.live
    killed := if st = MutantStatus.KILLED then acc.killed + 1 else acc.killed
    stillborn := if st = MutantStatus.STILLBORN then acc.stillborn + 1 else acc.stillborn
    trivial := if st = MutantStatus.TRIVIAL then acc.trivial + 1 else acc.trivial
    test_impact :=
      if st = MutantStatus.KILLED ∨ st = MutantStatus.TRIVIAL then
        impactUpdate acc.test_impact e.2
      else acc.test_impact
    mutation_status := setA acc.mutation_status e.1 st.value }

/-- The mutant loop of `get_mutation_summary`: iterate over the run set in
insertion order, skip the baseline entry, classify every other id with
`_evaluate_mutant` (whose `ValueError` aborts the whole summary), and
thread the accumulator through `summaryStep`. -/
def summaryLoop (rs : RunSet) : List (String × TestSuiteResult) → SummaryAcc →
    Except String SummaryAcc
  | [], acc => Except.ok acc
  | e :: rest, acc =>
    if e.1 = ORIGINAL_SRC_TEST_RESULTS_NAME then summaryLoop rs rest acc
    else
      match evaluate_mutant e.1 rs with
      | Except.error msg => Except.error msg
      | Except.ok st => summaryLoop rs rest (summaryStep acc e st)

/-- The summary dictionary returned by `get_mutation_summary`.  Python's
`len(test_results) - 1` is an unbounded integer, hence `Int`; the float
`mutation_score` is modelled as an exact rational. -/
structure MutationSummary where
  total_mutants : Int
  live : Nat
  killed : Nat
  stillborn : Nat
  trivial : Nat
  mutation_score : Rat
  test_impact : List (String × Nat)
  mutation_status : List (String × String)
deriving DecidableEq, Repr

/-- `MutantTester.get_mutation_summary`: classify every non-baseline run,
then assemble `total_mutants = len(test_results) - 1`, the per-status
counts, `mutation_score = killed / (total_mutants - stillborn) * 100`
(or `0` when the denominator is not positive), `test_impact` and
`mutation_status`. -/
def get_mutation_summary (test_results : RunSet) : Except String MutationSummary :=
  match summaryLoop test_results test_results SummaryAcc.init with
  | Except.error msg => Except.error msg
  | Except.ok acc =>
    let total_mutants : Int := (test_results.length : Int) - 1
    let effective_mutants : Int := total_mutants - (acc.stillborn : Int)
    let mutation_score : Rat :=
      if 0 < effective_mutants then
        ((acc.killed : Rat) / (effective_mutants : Rat)) * 100
      else 0
    Except.ok
      { total_mutants := total_mutants
        live := acc.live
        killed := acc.killed
        stillborn := acc.stillborn
        trivial := acc.trivial
        mutation_score := mutation_score
        test_impact := acc.test_impact
        mutation_status := acc.mutation_status }

/-- The `MutationLocation` dataclass from `util_classes.py`. -/
structure MutationLocation where
  line_number : Nat
  start_column : Option Nat
  end_column : Option Nat
deriving DecidableEq, Repr

/-- The `Mutation` model from `util_classes.py`: one candidate mutant. -/
structure Mutation where
  id : String
  operator : String
  mutated_code : String
  location : MutationLocation
  explanation : String
deriving DecidableEq, Repr

/-- The `MutationResult` model from `util_classes.py`: all mutations
generated for one source file. -/
structure MutationResult where
  rel_path : String
  total_mutations : Nat
  mutations : List Mutation
deriving DecidableEq, Repr

/-- The persisted result documents (`<runId>.json` files in the results
directory), modelled as an association list from run id to document. -/
abbrev Store := List (String × TestSuiteResult)

/-- Outcomes of the external processes during one pipeline run.
`compile = Except.error stderr` models a non-zero `javac` exit whose
captured standard error is `stderr`; `testExec = Except.error stderr`
models a non-zero exit of the external `TestRunner` process;
`testExec = Except.ok doc` models a successful run that deposited the
result document `doc` at the well-known path. -/
structure RunEnv where
  timestamp : String
  compile : Except String Unit
  testExec : Except String TestSuiteResult
deriving Repr

/-- `JUnitTestRunner.run_test_runner`: on a non-zero compiler exit,
`_compile_code` raises `Exception("Compilation failed:\n" + stderr)`;
the handler persists `{"compiled": False, "test_classes": [],
"compile_error": "Compilation failed: " + str(e)}` under the run's
filename and returns.  On successful compilation the external test
process is invoked; a non-zero exit raises (uncaught) `Exception
("Test execution failed:\n" + stderr)`, otherwise the deposited result
document is moved into the store under the run's filename. -/
def run_test_runner (env : RunEnv) (store : Store) (test_result_filename : String) :
    Except String Store :=
  match env.compile with
  | Except.error stderr =>
    Except.ok (setA store test_result_filename
      { timestamp := env.timestamp
        test_classes := []
        compiled := false
        compile_error := some ("Compilation failed: " ++ ("Compilation failed:\n" ++ stderr)) })
  | Except.ok _ =>
    match env.testExec with
    | Except.error stderr => Except.error ("Test execution failed:\n" ++ stderr)
    | Except.ok doc => Except.ok (setA store test_result_filename doc)

/-- Per-mutant process outcomes for a batch run: the outcome of the
`shutil.copytree` that materializes the mutant's workspace (an
`Except.error` models an I/O failure or an already-existing destination,
both raised as exceptions), plus the pipeline outcomes. -/
structure MutantRunEnv where
  copytree : Except String Unit
  run : RunEnv
deriving Repr

/-- Processing of one mutation inside `apply_and_test_mutations`:
`_apply_single_mutation` (whose `copytree` exception propagates) followed
by `_test_mutated_source`, which calls `run_test_runner` with the
mutation id as result filename. -/
def processMutation (env : String → MutantRunEnv) (store : Store) (m : Mutation) :
    Except String Store :=
  match (env m.id).copytree with
  | Except.error e => Except.error e
  | Except.ok _ => run_test_runner (env m.id).run store m.id

/-- The inner `for mutation in mutation_result.mutations` loop of
`MutantTester.apply_and_test_mutations`.  There is no `try/except` around
the body, so the first exception stops the loop; the store keeps the
documents persisted before it. -/
def mutationsLoop (env : String → MutantRunEnv) :
    List Mutation → Store → Store × Option String
  | [], store => (store, none)
  | m :: rest, store =>
    match processMutation env store m with
    | Except.error e => (store, some e)
    | Except.ok store2 => mutationsLoop env rest store2

/-- `MutantTester.apply_and_test_mutations`: the outer loop over the
`MutationResult`s, each running the inner loop over its mutations; an
exception raised for one mutant propagates out of both loops. -/
def apply_and_test_mutations (env : String → MutantRunEnv) :
    List MutationResult → Store → Store × Option String
  | [], store => (store, none)
  | mr :: rest, store =>
    match mutationsLoop env mr.mutations store with
    | (store2, some e) => (store2, some e)
    | (store2, none) => apply_and_test_mutations env rest store2

/-- Whether a path string starts with the POSIX separator
(`b.startswith(sep)` in `posixpath.join`). -/
def startsWithSep (s : String) : Bool :=
  match s.data with
  | [] => false
  | c :: _ => c = '/'

/-- Whether a path string ends with the POSIX separator
(`result.endswith(sep)` in `posixpath.join`). -/
def endsWithSep (s : String) : Bool :=
  match s.data.getLast? with
  | some c => c = '/'
  | none => false

/-- `os.path.join(a, b)` for POSIX paths, as used by
`_apply_single_mutation`: an absolute `b` replaces `a`; otherwise the
components are joined with a single separator. -/
def os_path_join (a b : String) : String :=
  if startsWithSep b then b
  else if a = "" then b
  else if endsWithSep a then a ++ b
  else a ++ "/" ++ b

/-- A file tree: full path to file content. -/
abbrev FileTree := List (String × String)

/-- `MutantTester._apply_single_mutation` over a modelled filesystem:
`shutil.copytree(original_dir, mutant_dir)` raises when the destination
already exists (`dest_exists`), otherwise it copies every file of the
baseline tree (given by its paths relative to `original_dir`) under
`mutant_dir`; then the file at `os.path.join(mutant_dir, rel_path)` is
written with `mutation.mutated_code` — but only under the guard
`if file_path:`, i.e. when the joined path string is non-empty; the
`else` branch merely logs and writes nothing. -/
def apply_single_mutation (mutation_dir : String) (original_tree : FileTree)
    (dest_exists : Bool) (mutation : Mutation) (rel_path : String) :
    Except String FileTree :=
  let mutant_dir := os_path_join mutation_dir mutation.id
  if dest_exists then Except.error ("FileExistsError: " ++ mutant_dir)
  else
    let copied := original_tree.map (fun e => (os_path_join mutant_dir e.1, e.2))
    let file_path := os_path_join mutant_dir rel_path
    if file_path ≠ "" then Except.ok (setA copied file_path mutation.mutated_code)
    else Except.ok copied

deriving instance DecidableEq for Except

/-! ### Association-list lemmas shared by several developments -/

theorem lookupA_nil {α : Type} (k : String) : lookupA ([] : List (String × α)) k = none := rfl

theorem lookupA_setA_self {α : Type} (d : List (String × α)) (k : String) (v : α) :
    lookupA (setA d k v) k = some v := by
  induction d with
  | nil => simp [setA, lookupA]
  | cons e rest ih =>
    by_cases h : e.1 = k
    · simp [setA, lookupA, h]
    · simp [setA, lookupA, h, ih]

theorem lookupA_setA_ne {α : Type} (d : List (String × α)) (k k' : String) (v : α)
    (h : k' ≠ k) : lookupA (setA d k v) k' = lookupA d k' := by
  induction d with
  | nil => simp [setA, lookupA, Ne.symm h]
  | cons e rest ih =>
    by_cases he : e.1 = k
    · simp [setA, lookupA, he, Ne.symm h]
    · simp [setA, lookupA, he, ih]

theorem isSome_lookupA_setA {α : Type} (d : List (String × α)) (k k' : String) (v : α)
    (h : (lookupA d k').isSome = true) : (lookupA (setA d k v) k').isSome = true := by
  by_cases hk : k' = k
  · subst hk; simp [lookupA_setA_self]
  · rw [lookupA_setA_ne d k k' v hk]; exact h

/-! ### C1 -/

/-- C1: for every run set and mutant id, `_evaluate_mutant` returns
`STILLBORN` when the run set has no result document for that id, and also
when the id's document has `compiled == False`, whatever its
`test_classes` list holds. -/
theorem c1_missing_or_uncompiled_is_stillborn (rs : RunSet) (mid : String) :
    (getRun rs mid = none →
      evaluate_mutant mid rs = Except.ok MutantStatus.STILLBORN) ∧
    (∀ m : TestSuiteResult, getRun rs mid = some m → m.compiled = false →
      evaluate_mutant mid rs = Except.ok MutantStatus.STILLBORN) := by
  constructor
  · intro h
    simp [evaluate_mutant, h]
  · intro m hm hc
    simp [evaluate_mutant, hm, hc]

/-- A run set whose only entry is an uncompiled mutant `M2` with a
non-empty `test_classes` list. -/
def c1RunSet : RunSet :=
  [("M2",
    { timestamp := "t"
      test_classes := [⟨"ClassA", 1, 0, 1, [⟨"a", "idA", true, none⟩]⟩]
      compiled := false
      compile_error := some "boom" })]

/-- Witness for C1: the absent id `M1` and the uncompiled id `M2` (whose
`test_classes` list is non-empty) are both classified `STILLBORN`. -/
theorem c1_missing_or_uncompiled_is_stillborn_witness :
    evaluate_mutant "M1" c1RunSet = Except.ok MutantStatus.STILLBORN ∧
    evaluate_mutant "M2" c1RunSet = Except.ok MutantStatus.STILLBORN :=
  ⟨(c1_missing_or_uncompiled_is_stillborn c1RunSet "M1").1 (by decide),
   (c1_missing_or_uncompiled_is_stillborn c1RunSet "M2").2
     { timestamp := "t"
       test_classes := [⟨"ClassA", 1, 0, 1, [⟨"a", "idA", true, none⟩]⟩]
       compiled := false
       compile_error := some "boom" } (by decide) rfl⟩

/-! ### C2 -/

/-- C2: for a mutant whose document has `compiled == True` and when the
baseline document exists, `_evaluate_mutant` returns `LIVE` iff
`different_results = 0`, `TRIVIAL` iff `different_results = total_tests`
with `total_tests > 0`, and `KILLED` otherwise, the two counters being the
ones computed by the comparison loops. -/
theorem c2_live_trivial_killed (rs : RunSet) (mid : String) (m orig : TestSuiteResult)
    (hm : getRun rs mid = some m) (hc : m.compiled = true)
    (ho : getRun rs ORIGINAL_SRC_TEST_RESULTS_NAME = some orig) :
    (evaluate_mutant mid rs = Except.ok MutantStatus.LIVE ↔
      (pairCounts orig.test_classes m.test_classes).1 = 0) ∧
    (evaluate_mutant mid rs = Except.ok MutantStatus.TRIVIAL ↔
      ((pairCounts orig.test_classes m.test_classes).1 =
          (pairCounts orig.test_classes m.test_classes).2 ∧
        0 < (pairCounts orig.test_classes m.test_classes).2)) ∧
    (evaluate_mutant mid rs = Except.ok MutantStatus.KILLED ↔
      (¬ (pairCounts orig.test_classes m.test_classes).1 = 0 ∧
        ¬ ((pairCounts orig.test_classes m.test_classes).1 =
             (pairCounts orig.test_classes m.test_classes).2 ∧
           0 < (pairCounts orig.test_classes m.test_classes).2))) := by
  have hev : evaluate_mutant mid rs =
      (if (pairCounts orig.test_classes m.test_classes).1 = 0 then
        Except.ok MutantStatus.LIVE
      else if (pairCounts orig.test_classes m.test_classes).1 =
          (pairCounts orig.test_classes m.test_classes).2 then
        Except.ok MutantStatus.TRIVIAL
      else Except.ok MutantStatus.KILLED) := by
    simp [evaluate_mutant, hm, hc, ho]
  rw [hev]
  by_cases h0 : (pairCounts orig.test_classes m.test_classes).1 = 0
  · rw [if_pos h0]
    refine ⟨by simp [h0], ?_, ?_⟩
    · constructor
      · intro hcon; exact absurd hcon (by simp)
      · intro hcon; omega
    · constructor
      · intro hcon; exact absurd hcon (by simp)
      · intro hcon; exact absurd h0 hcon.1
  · by_cases he : (pairCounts orig.test_classes m.test_classes).1 =
        (pairCounts orig.test_classes m.test_classes).2
    · rw [if_neg h0, if_pos he]
      refine ⟨?_, ?_, ?_⟩
      · constructor
        · intro hcon; exact absurd hcon (by simp)
        · intro hcon; exact absurd hcon h0
      · constructor
        · intro _; exact ⟨he, by omega⟩
        · intro _; rfl
      · constructor
        · intro hcon; exact absurd hcon (by simp)
        · intro hcon; exact absurd ⟨he, by omega⟩ hcon.2
    · rw [if_neg h0, if_neg he]
      refine ⟨?_, ?_, ?_⟩
      · constructor
        · intro hcon; exact absurd hcon (by simp)
        · intro hcon; exact absurd hcon h0
      · constructor
        · intro hcon; exact absurd hcon (by simp)
        · intro hcon; exact absurd hcon.1 he
      · constructor
        · intro _; exact ⟨h0, fun hcon => he hcon.1⟩
        · intro _; rfl

/-- A run set with a baseline of three passing tests and a compiled mutant
`M1` flipping exactly one of them. -/
def c2RunSet : RunSet :=
  [("original",
    { timestamp := "t"
      test_classes :=
        [⟨"ClassA", 3, 0, 3,
          [⟨"a", "idA", true, none⟩, ⟨"b", "idB", true, none⟩, ⟨"c", "idC", true, none⟩]⟩]
      compiled := true
      compile_error := none }),
   ("M1",
    { timestamp := "t"
      test_classes :=
        [⟨"ClassA", 2, 1, 3,
          [⟨"a", "idA", false, some "fail"⟩, ⟨"b", "idB", true, none⟩, ⟨"c", "idC", true, none⟩]⟩]
      compiled := true
      compile_error := none })]

/-- The baseline document of `c2RunSet`. -/
def c2Original : TestSuiteResult :=
  { timestamp := "t"
    test_classes :=
      [⟨"ClassA", 3, 0, 3,
        [⟨"a", "idA", true, none⟩, ⟨"b", "idB", true, none⟩, ⟨"c", "idC", true, none⟩]⟩]
    compiled := true
    compile_error := none }

/-- The mutant document of `c2RunSet`. -/
def c2Mutant : TestSuiteResult :=
  { timestamp := "t"
    test_classes :=
      [⟨"ClassA", 2, 1, 3,
        [⟨"a", "idA", false, some "fail"⟩, ⟨"b", "idB", true, none⟩, ⟨"c", "idC", true, none⟩]⟩]
    compiled := true
    compile_error := none }

/-- Witness for C2 at `c2RunSet` (`different_results = 1`,
`total_tests = 3`, so `M1` is `KILLED`). -/
theorem c2_live_trivial_killed_witness :
    (evaluate_mutant "M1" c2RunSet = Except.ok MutantStatus.LIVE ↔
      (pairCounts c2Original.test_classes c2Mutant.test_classes).1 = 0) ∧
    (evaluate_mutant "M1" c2RunSet = Except.ok MutantStatus.TRIVIAL ↔
      ((pairCounts c2Original.test_classes c2Mutant.test_classes).1 =
          (pairCounts c2Original.test_classes c2Mutant.test_classes).2 ∧
        0 < (pairCounts c2Original.test_classes c2Mutant.test_classes).2)) ∧
    (evaluate_mutant "M1" c2RunSet = Except.ok MutantStatus.KILLED ↔
      (¬ (pairCounts c2Original.test_classes c2Mutant.test_classes).1 = 0 ∧
        ¬ ((pairCounts c2Original.test_classes c2Mutant.test_classes).1 =
             (pairCounts c2Original.test_classes c2Mutant.test_classes).2 ∧
           0 < (pairCounts c2Original.test_classes c2Mutant.test_classes).2))) :=
  c2_live_trivial_killed c2RunSet "M1" c2Mutant c2Original (by decide) rfl (by decide)

/-! ### C3 -/

/-- The pairs the inner loop of `_evaluate_mutant` actually matches when
one mutant class meets one baseline test list: each mutant test is paired
with the first baseline test sharing its `test_unique_id`; unmatched
tests produce nothing.  Pairs are `(baseline test, mutant test)`. -/
def pairsOfTests (original_tests mutant_tests : List TestResult) :
    List (TestResult × TestResult) :=
  mutant_tests.filterMap (fun mt =>
    (original_tests.find? (fun t => t.test_unique_id == mt.test_unique_id)).map
      (fun ot => (ot, mt)))

/-- The pairs contributed by one mutant class: none when no baseline class
carries the same `test_class_name`, otherwise the pairs formed inside the
first baseline class with that name. -/
def classPairs (original_classes : List TestClassResult) (mc : TestClassResult) :
    List (TestResult × TestResult) :=
  match original_classes.find? (fun c => c.test_class_name == mc.test_class_name) with
  | none => []
  | some oc => pairsOfTests oc.test_results mc.test_results

/-- All matched pairs of one classification, in loop order. -/
def matchedPairs (original_classes mutant_classes : List TestClassResult) :
    List (TestResult × TestResult) :=
  (mutant_classes.map (classPairs original_classes)).flatten

/-- Whether a matched pair's `is_passed` flags differ, oriented as in the
loop (`mutant != original`). -/
def diffPair (p : TestResult × TestResult) : Bool :=
  p.2.is_passed != p.1.is_passed

theorem pairsOfTests_cons (ot : List TestResult) (mt : TestResult) (rest : List TestResult) :
    pairsOfTests ot (mt :: rest) =
      (match ot.find? (fun t => t.test_unique_id == mt.test_unique_id) with
      | none => pairsOfTests ot rest
      | some o => (o, mt) :: pairsOfTests ot rest) := by
  cases hf : ot.find? (fun t => t.test_unique_id == mt.test_unique_id) <;>
    simp [pairsOfTests, hf]

theorem testPairCounts_eq (ot : List TestResult) :
    ∀ (l : List TestResult) (acc : Nat × Nat),
      testPairCounts ot l acc =
        (acc.1 + (pairsOfTests ot l).countP diffPair, acc.2 + (pairsOfTests ot l).length)
  | [], acc => by simp [testPairCounts, pairsOfTests]
  | mt :: rest, acc => by
    cases hf : ot.find? (fun t => t.test_unique_id == mt.test_unique_id) with
    | none =>
      simp only [testPairCounts, hf, pairsOfTests_cons]
      exact testPairCounts_eq ot rest acc
    | some o =>
      simp only [testPairCounts, hf, pairsOfTests_cons]
      rw [testPairCounts_eq ot rest]
      have hd : diffPair (o, mt) = (mt.is_passed != o.is_passed) := rfl
      cases hcase : mt.is_passed != o.is_passed <;>
        simp [List.countP_cons, List.length_cons, hd, hcase, Prod.mk.injEq] <;> omega

theorem classPairCounts_eq (ocs : List TestClassResult) :
    ∀ (l : List TestClassResult) (acc : Nat × Nat),
      classPairCounts ocs l acc =
        (acc.1 + (matchedPairs ocs l).countP diffPair, acc.2 + (matchedPairs ocs l).length)
  | [], acc => by simp [classPairCounts, matchedPairs]
  | mc :: rest, acc => by
    have hmp : matchedPairs ocs (mc :: rest) = classPairs ocs mc ++ matchedPairs ocs rest := by
      simp [matchedPairs]
    rw [hmp]
    cases hf : ocs.find? (fun c => c.test_class_name == mc.test_class_name) with
    | none =>
      simp only [classPairCounts, hf, classPairs, List.nil_append]
      exact classPairCounts_eq ocs rest acc
    | some oc =>
      simp only [classPairCounts, hf, classPairs]
      rw [classPairCounts_eq ocs rest, testPairCounts_eq]
      simp only [List.countP_append, List.length_append, Prod.mk.injEq]
      omega

/-- C3 (amended): the code's matched pairs require the enclosing class
names to agree as well: a mutant test is paired with the first baseline
test with the same `test_unique_id` *inside the first baseline class
whose `test_class_name` equals the mutant class's name*; all other tests
are ignored by both counters.  `total_tests` is the number of such pairs
and `different_results` counts those whose `is_passed` flags differ, and
every matched pair has equal `test_unique_id`s. -/
theorem c3_matching_by_class_then_id (ocs mcs : List TestClassResult) :
    pairCounts ocs mcs =
      ((matchedPairs ocs mcs).countP diffPair, (matchedPairs ocs mcs).length) ∧
    ∀ p ∈ matchedPairs ocs mcs, p.1.test_unique_id = p.2.test_unique_id := by
  constructor
  · simp [pairCounts, classPairCounts_eq]
  · intro p hp
    rw [matchedPairs, List.mem_flatten] at hp
    obtain ⟨l, hl, hpl⟩ := hp
    rw [List.mem_map] at hl
    obtain ⟨mc, _, rfl⟩ := hl
    rcases hf : ocs.find? (fun c => c.test_class_name == mc.test_class_name) with _ | oc
    · simp only [classPairs, hf] at hpl
      cases hpl
    · simp only [classPairs, hf] at hpl
      simp only [pairsOfTests, List.mem_filterMap] at hpl
      obtain ⟨mt, _, hmt⟩ := hpl
      rcases hfind : oc.test_results.find?
          (fun t => t.test_unique_id == mt.test_unique_id) with _ | ot
      · rw [hfind] at hmt; cases hmt
      · rw [hfind] at hmt
        have hq := List.find?_some hfind
        simp only [Option.map_some'] at hmt
        cases hmt
        simpa using hq

/-- Following the claim's words, for comparison with the source: a
baseline test and a mutant test form a matched pair exactly when they
have the same `test_unique_id`, regardless of which class either belongs
to. -/
def pairCountsSpecMatching (original_classes mutant_classes : List TestClassResult) :
    Nat × Nat :=
  let originalTests := (original_classes.map TestClassResult.test_results).flatten
  let mutantTests := (mutant_classes.map TestClassResult.test_results).flatten
  (mutantTests.countP (fun mt =>
      match originalTests.find? (fun t => t.test_unique_id == mt.test_unique_id) with
      | some ot => mt.is_passed != ot.is_passed
      | none => false),
    mutantTests.countP (fun mt =>
      (originalTests.find? (fun t => t.test_unique_id == mt.test_unique_id)).isSome))

/-- Baseline: test `uid1` passes, inside class `ClassB`. -/
def c3BaselineClasses : List TestClassResult :=
  [⟨"ClassB", 1, 0, 1, [⟨"t1", "uid1", true, none⟩]⟩]

/-- Mutant: the very same `test_unique_id` fails, but reported under class
`ClassA`. -/
def c3MutantClasses : List TestClassResult :=
  [⟨"ClassA", 0, 1, 1, [⟨"t1", "uid1", false, some "boom"⟩]⟩]

/-- A run set pairing the two documents above. -/
def c3RunSet : RunSet :=
  [("original", ⟨"t", c3BaselineClasses, true, none⟩),
   ("M1", ⟨"t", c3MutantClasses, true, none⟩)]

/-- C3 is false as stated: a baseline test and a mutant test with the same
`test_unique_id` (`uid1`) but differently named classes are *not* matched
by the code — both counters stay `0` and the mutant is classified `LIVE` —
whereas matching solely by `test_unique_id`, as the claim states, would
give one differing matched pair. -/
theorem c3_counterexample :
    pairCounts c3BaselineClasses c3MutantClasses = (0, 0) ∧
    pairCountsSpecMatching c3BaselineClasses c3MutantClasses = (1, 1) ∧
    evaluate_mutant "M1" c3RunSet = Except.ok MutantStatus.LIVE := by
  refine ⟨by decide, by decide, by rfl⟩

/-- Witness for the amended C3 at the counterexample's documents: the
matched-pair list is empty there, so both counters are `0`. -/
theorem c3_matching_by_class_then_id_witness :
    pairCounts c3BaselineClasses c3MutantClasses =
      ((matchedPairs c3BaselineClasses c3MutantClasses).countP diffPair,
        (matchedPairs c3BaselineClasses c3MutantClasses).length) ∧
    ∀ p ∈ matchedPairs c3BaselineClasses c3MutantClasses,
      p.1.test_unique_id = p.2.test_unique_id :=
  c3_matching_by_class_then_id c3BaselineClasses c3MutantClasses

/-! ### C4 -/

theorem summaryLoop_counts (rs : RunSet) :
    ∀ (l : List (String × TestSuiteResult)) (acc acc' : SummaryAcc),
      summaryLoop rs l acc = Except.ok acc' →
      acc'.live + acc'.killed + acc'.stillborn + acc'.trivial =
        acc.live + acc.killed + acc.stillborn + acc.trivial +
          l.countP (fun e => !(e.1 == ORIGINAL_SRC_TEST_RESULTS_NAME))
  | [], acc, acc', h => by
    cases h
    simp
  | e :: rest, acc, acc', h => by
    by_cases he : e.1 = ORIGINAL_SRC_TEST_RESULTS_NAME
    · rw [summaryLoop, if_pos he] at h
      have ih := summaryLoop_counts rs rest acc acc' h
      have hc : (e :: rest).countP (fun x => !(x.1 == ORIGINAL_SRC_TEST_RESULTS_NAME)) =
          rest.countP (fun x => !(x.1 == ORIGINAL_SRC_TEST_RESULTS_NAME)) := by
        simp [List.countP_cons, he]
      rw [hc]
      exact ih
    · rw [summaryLoop, if_neg he] at h
      cases hev : evaluate_mutant e.1 rs with
      | error msg => rw [hev] at h; cases h
      | ok st =>
        rw [hev] at h
        have ih := summaryLoop_counts rs rest (summaryStep acc e st) acc' h
        have hc : (e :: rest).countP (fun x => !(x.1 == ORIGINAL_SRC_TEST_RESULTS_NAME)) =
            rest.countP (fun x => !(x.1 == ORIGINAL_SRC_TEST_RESULTS_NAME)) + 1 := by
          simp [List.countP_cons, he]
        rw [hc]
        cases st <;> simp [summaryStep] at ih <;> omega

theorem countP_bool_split {α : Type} (p : α → Bool) (l : List α) :
    l.countP (fun a => !p a) + l.countP p = l.length := by
  induction l with
  | nil => simp
  | cons a t ih =>
    cases h : p a <;> simp [List.countP_cons, h] <;> omega

theorem countP_ne_original (rs : RunSet) (hnd : (rs.map Prod.fst).Nodup)
    (hb : ORIGINAL_SRC_TEST_RESULTS_NAME ∈ rs.map Prod.fst) :
    rs.countP (fun e => !(e.1 == ORIGINAL_SRC_TEST_RESULTS_NAME)) = rs.length - 1 := by
  have hlen := countP_bool_split
    (fun e : String × TestSuiteResult => e.1 == ORIGINAL_SRC_TEST_RESULTS_NAME) rs
  have hone : rs.countP (fun e => e.1 == ORIGINAL_SRC_TEST_RESULTS_NAME) = 1 := by
    have hmap : (rs.map Prod.fst).count ORIGINAL_SRC_TEST_RESULTS_NAME = 1 :=
      List.count_eq_one_of_mem hnd hb
    rw [List.count, List.countP_map] at hmap
    have : (fun e : String × TestSuiteResult => e.1 == ORIGINAL_SRC_TEST_RESULTS_NAME) =
        ((fun s => s == ORIGINAL_SRC_TEST_RESULTS_NAME) ∘ Prod.fst) := rfl
    rw [this]
    exact hmap
  omega

/-- C4: for every run set with no duplicate run ids that contains the
baseline, `get_mutation_summary` returns
`mutation_score = killed / (total_mutants - stillborn) * 100`, with `0`
when the denominator is not positive, and the score always lies in
`[0, 100]`. -/
theorem c4_mutation_score (rs : RunSet)
    (hnd : (rs.map Prod.fst).Nodup)
    (hb : ORIGINAL_SRC_TEST_RESULTS_NAME ∈ rs.map Prod.fst)
    (s : MutationSummary) (hs : get_mutation_summary rs = Except.ok s) :
    s.mutation_score =
      (if 0 < s.total_mutants - (s.stillborn : Int) then
        ((s.killed : Rat) / ((s.total_mutants - (s.stillborn : Int) : Int) : Rat)) * 100
      else 0) ∧
    0 ≤ s.mutation_score ∧ s.mutation_score ≤ 100 := by
  rw [get_mutation_summary] at hs
  cases hl : summaryLoop rs rs SummaryAcc.init with
  | error msg => rw [hl] at hs; cases hs
  | ok acc =>
    rw [hl] at hs
    have hrec := hs
    injection hrec with hrec
    subst hrec
    have hsum := summaryLoop_counts rs rs SummaryAcc.init acc hl
    rw [countP_ne_original rs hnd hb] at hsum
    simp only [SummaryAcc.init, Nat.zero_add] at hsum
    have hlen : 1 ≤ rs.length := by
      cases rs with
      | nil => cases hb
      | cons a l => simp
    refine ⟨rfl, ?_, ?_⟩ <;>
      simp only
    all_goals
      by_cases hpos : (0 : Int) < (rs.length : Int) - 1 - (acc.stillborn : Int)
    · rw [if_pos hpos]
      have hposR : (0 : Rat) < (((rs.length : Int) - 1 - (acc.stillborn : Int) : Int) : Rat) := by
        exact_mod_cast hpos
      positivity
    · rw [if_neg hpos]
    · rw [if_pos hpos]
      have heff : ((rs.length : Int) - 1 - (acc.stillborn : Int)) =
          ((acc.live + acc.killed + acc.trivial : Nat) : Int) := by
        omega
      have hposN : 0 < acc.live + acc.killed + acc.trivial := by
        omega
      have hposR : (0 : Rat) < (((rs.length : Int) - 1 - (acc.stillborn : Int) : Int) : Rat) := by
        exact_mod_cast hpos
      have hKR : (acc.killed : Rat) ≤
          (((rs.length : Int) - 1 - (acc.stillborn : Int) : Int) : Rat) := by
        rw [heff]
        have : acc.killed ≤ acc.live + acc.killed + acc.trivial := by omega
        exact_mod_cast this
      have h1 : (acc.killed : Rat) /
          (((rs.length : Int) - 1 - (acc.stillborn : Int) : Int) : Rat) ≤ 1 :=
        (div_le_one hposR).mpr hKR
      calc (acc.killed : Rat) /
            (((rs.length : Int) - 1 - (acc.stillborn : Int) : Int) : Rat) * 100 ≤ 1 * 100 := by
            exact mul_le_mul_of_nonneg_right h1 (by norm_num)
        _ = 100 := by norm_num
    · rw [if_neg hpos]
      norm_num

/-- A run set with the baseline (two passing tests), a killed mutant `M1`
(one test flipped) and a stillborn mutant `M2` (did not compile). -/
def c4RunSet : RunSet :=
  [("original",
    { timestamp := "t"
      test_classes :=
        [⟨"A", 2, 0, 2, [⟨"a", "idA", true, none⟩, ⟨"b", "idB", true, none⟩]⟩]
      compiled := true
      compile_error := none }),
   ("M1",
    { timestamp := "t"
      test_classes :=
        [⟨"A", 1, 1, 2, [⟨"a", "idA", false, some "f"⟩, ⟨"b", "idB", true, none⟩]⟩]
      compiled := true
      compile_error := none }),
   ("M2",
    { timestamp := "t"
      test_classes := []
      compiled := false
      compile_error := some "javac" })]

/-- The summary the code computes for `c4RunSet`: two mutants, one killed,
one stillborn, `mutation_score = 1 / (2 - 1) * 100 = 100`. -/
def c4Summary : MutationSummary :=
  { total_mutants := 2
    live := 0
    killed := 1
    stillborn := 1
    trivial := 0
    mutation_score := 100
    test_impact := [("A#a", 1)]
    mutation_status := [("M1", "killed"), ("M2", "stillborn")] }

/-- Witness for C4 at `c4RunSet`. -/
theorem c4_mutation_score_witness :
    c4Summary.mutation_score =
      (if 0 < c4Summary.total_mutants - (c4Summary.stillborn : Int) then
        ((c4Summary.killed : Rat) /
          ((c4Summary.total_mutants - (c4Summary.stillborn : Int) : Int) : Rat)) * 100
      else 0) ∧
    0 ≤ c4Summary.mutation_score ∧ c4Summary.mutation_score ≤ 100 :=
  c4_mutation_score c4RunSet (by decide) (by decide) c4Summary (by
    have hloop : summaryLoop c4RunSet c4RunSet SummaryAcc.init =
        Except.ok ⟨0, 1, 1, 0, [("A#a", 1)], [("M1", "killed"), ("M2", "stillborn")]⟩ := by
      decide
    rw [get_mutation_summary, hloop]
    norm_num [c4Summary, c4RunSet])

/-! ### C5 -/

/-- The `test_impact` keys one result document contributes in
`get_mutation_summary` when its mutant is killed or trivial: one
`"ClassName#testName"` occurrence per test with `is_passed == False`, in
loop order. -/
def failKeys (suite : TestSuiteResult) : List String :=
  (suite.test_classes.map (fun c =>
    (c.test_results.filter (fun t => t.is_passed == false)).map
      (fun t => c.test_class_name ++ "#" ++ t.test_name))).flatten

theorem foldl_bump_tests (cname : String) :
    ∀ (ts : List TestResult) (im : List (String × Nat)),
      ts.foldl
        (fun im2 t =>
          if t.is_passed = false then bumpA im2 (cname ++ "#" ++ t.test_name) else im2)
        im =
      ((ts.filter (fun t => t.is_passed == false)).map
        (fun t => cname ++ "#" ++ t.test_name)).foldl bumpA im
  | [], im => by simp
  | t :: rest, im => by
    cases hp : t.is_passed <;>
      simp [List.foldl_cons, List.filter_cons, hp, foldl_bump_tests cname rest]

theorem impactUpdate_eq (suite : TestSuiteResult) :
    ∀ (im : List (String × Nat)), impactUpdate im suite = (failKeys suite).foldl bumpA im := by
  show ∀ im, suite.test_classes.foldl _ im = _
  have main : ∀ (cs : List TestClassResult) (im : List (String × Nat)),
      cs.foldl
        (fun im c =>
          c.test_results.foldl
            (fun im2 t =>
              if t.is_passed = false then
                bumpA im2 (c.test_class_name ++ "#" ++ t.test_name)
              else im2)
            im)
        im =
      ((cs.map (fun c =>
        (c.test_results.filter (fun t => t.is_passed == false)).map
          (fun t => c.test_class_name ++ "#" ++ t.test_name))).flatten).foldl bumpA im := by
    intro cs
    induction cs with
    | nil => intro im; simp
    | cons c rest ih =>
      intro im
      simp only [List.foldl_cons, List.map_cons, List.flatten_cons, List.foldl_append]
      rw [foldl_bump_tests, ih]
  intro im
  exact main suite.test_classes im

theorem lookupA_foldl_bumpA :
    ∀ (ks : List String) (d : List (String × Nat)) (k : String),
      lookupA (ks.foldl bumpA d) k =
        if (lookupA d k).isSome ∨ k ∈ ks then
          some ((lookupA d k).getD 0 + ks.count k)
        else none
  | [], d, k => by
    cases h : lookupA d k <;> simp [h]
  | a :: ks, d, k => by
    rw [List.foldl_cons, lookupA_foldl_bumpA ks (bumpA d a) k]
    by_cases hk : k = a
    · subst hk
      rw [show lookupA (bumpA d k) k = some ((lookupA d k).getD 0 + 1) from
        lookupA_setA_self d k _]
      simp [List.count_cons]
      omega
    · rw [show lookupA (bumpA d a) k = lookupA d k from lookupA_setA_ne d a k _ hk]
      have hcnt : (a :: ks).count k = ks.count k := by
        simp [List.count_cons, hk]
      rw [hcnt]
      simp [List.mem_cons, hk]

/-- The concatenated `test_impact` key stream of a whole summary pass over
the entries `l`: killed and trivial mutants contribute the keys of their
failing tests, live and stillborn mutants (and the baseline entry)
contribute nothing. -/
def killedTrivialFailKeys (rs : RunSet) (l : List (String × TestSuiteResult)) : List String :=
  (l.map (fun e =>
    if e.1 = ORIGINAL_SRC_TEST_RESULTS_NAME then []
    else
      match evaluate_mutant e.1 rs with
      | Except.ok st =>
        if st = MutantStatus.KILLED ∨ st = MutantStatus.TRIVIAL then failKeys e.2 else []
      | Except.error _ => [])).flatten

theorem summaryLoop_impact (rs : RunSet) :
    ∀ (l : List (String × TestSuiteResult)) (acc acc' : SummaryAcc),
      summaryLoop rs l acc = Except.ok acc' →
      acc'.test_impact = (killedTrivialFailKeys rs l).foldl bumpA acc.test_impact
  | [], acc, acc', h => by
    cases h
    simp [killedTrivialFailKeys]
  | e :: rest, acc, acc', h => by
    have hknil : killedTrivialFailKeys rs (e :: rest) =
        (if e.1 = ORIGINAL_SRC_TEST_RESULTS_NAME then []
        else
          match evaluate_mutant e.1 rs with
          | Except.ok st =>
            if st = MutantStatus.KILLED ∨ st = MutantStatus.TRIVIAL then failKeys e.2 else []
          | Except.error _ => []) ++ killedTrivialFailKeys rs rest := by
      simp [killedTrivialFailKeys]
    by_cases he : e.1 = ORIGINAL_SRC_TEST_RESULTS_NAME
    · rw [summaryLoop, if_pos he] at h
      rw [hknil, if_pos he, List.nil_append]
      exact summaryLoop_impact rs rest acc acc' h
    · rw [summaryLoop, if_neg he] at h
      rw [hknil, if_neg he]
      cases hev : evaluate_mutant e.1 rs with
      | error msg => rw [hev] at h; cases h
      | ok st =>
        rw [hev] at h
        dsimp only at h ⊢
        have ih := summaryLoop_impact rs rest (summaryStep acc e st) acc' h
        rw [ih, List.foldl_append]
        by_cases hkt : st = MutantStatus.KILLED ∨ st = MutantStatus.TRIVIAL
        · rw [if_pos hkt]
          have : (summaryStep acc e st).test_impact = impactUpdate acc.test_impact e.2 := by
            simp [summaryStep, hkt]
          rw [this, impactUpdate_eq]
        · rw [if_neg hkt]
          have : (summaryStep acc e st).test_impact = acc.test_impact := by
            simp [summaryStep, hkt]
          rw [this, List.foldl_nil]

/-- C5 (amended): `test_impact` maps a key to the exact number of
failing-test occurrences with that key across the result documents of
mutants classified `KILLED` or `TRIVIAL` — counting *every* test with
`is_passed == False` in such a document, whether or not it matches a
baseline test — and has no entry for any other key, so entries never
originate from a `LIVE` or `STILLBORN` mutant's results. -/
theorem c5_test_impact (rs : RunSet) (s : MutationSummary)
    (hs : get_mutation_summary rs = Except.ok s) (k : String) :
    lookupA s.test_impact k =
      (if k ∈ killedTrivialFailKeys rs rs then
        some ((killedTrivialFailKeys rs rs).count k)
      else none) := by
  rw [get_mutation_summary] at hs
  cases hl : summaryLoop rs rs SummaryAcc.init with
  | error msg => rw [hl] at hs; cases hs
  | ok acc =>
    rw [hl] at hs
    injection hs with hs
    subst hs
    have himp := summaryLoop_impact rs rs SummaryAcc.init acc hl
    show lookupA acc.test_impact k = _
    rw [himp]
    rw [lookupA_foldl_bumpA]
    simp [SummaryAcc.init, lookupA]

/-- Baseline for C5: class `C` with two passing tests `uid1`, `uid2`. -/
def c5OriginalSuite : TestSuiteResult :=
  { timestamp := "t"
    test_classes :=
      [⟨"C", 2, 0, 2, [⟨"t1", "uid1", true, none⟩, ⟨"t2", "uid2", true, none⟩]⟩]
    compiled := true
    compile_error := none }

/-- Mutant document for C5: `uid1` flips to failing, `uid2` still passes,
and a third failing test `uid3` exists only in the mutant's run (it has no
baseline counterpart, so it is not matched). -/
def c5MutantSuite : TestSuiteResult :=
  { timestamp := "t"
    test_classes :=
      [⟨"C", 1, 2, 3,
        [⟨"t1", "uid1", false, some "f"⟩, ⟨"t2", "uid2", true, none⟩,
         ⟨"t3", "uid3", false, some "f"⟩]⟩]
    compiled := true
    compile_error := none }

/-- Run set for C5. -/
def c5RunSet : RunSet := [("original", c5OriginalSuite), ("M1", c5MutantSuite)]

/-- The summary the code computes for `c5RunSet`: `M1` has one differing
matched pair out of two, so it is `KILLED`; `test_impact` counts *both*
failing tests, the matched `t1` and the unmatched `t3`. -/
def c5Summary : MutationSummary :=
  { total_mutants := 1
    live := 0
    killed := 1
    stillborn := 0
    trivial := 0
    mutation_score := 100
    test_impact := [("C#t1", 1), ("C#t3", 1)]
    mutation_status := [("M1", "killed")] }

theorem c5_summary_value : get_mutation_summary c5RunSet = Except.ok c5Summary := by
  have hloop : summaryLoop c5RunSet c5RunSet SummaryAcc.init =
      Except.ok ⟨0, 1, 0, 0, [("C#t1", 1), ("C#t3", 1)], [("M1", "killed")]⟩ := by
    decide
  rw [get_mutation_summary, hloop]
  norm_num [c5Summary, c5RunSet]

/-- C5 is false as stated: mutant `M1` of `c5RunSet` is classified
`KILLED` and its test `t3` (`uid3`) failed under the mutant but matches
no baseline test — it is not a matched pair — yet
`test_impact["C#t3"]` is incremented to `1`. -/
theorem c5_counterexample :
    get_mutation_summary c5RunSet = Except.ok c5Summary ∧
    lookupA c5Summary.test_impact "C#t3" = some 1 ∧
    lookupA c5Summary.mutation_status "M1" = some "killed" ∧
    (c5OriginalSuite.test_classes.map TestClassResult.test_results).flatten.find?
      (fun t => t.test_unique_id == "uid3") = none :=
  ⟨c5_summary_value, by decide, by decide, by decide⟩

/-- Witness for the amended C5 at `c5RunSet` with key `"C#t3"`. -/
theorem c5_test_impact_witness :
    lookupA c5Summary.test_impact "C#t3" =
      (if "C#t3" ∈ killedTrivialFailKeys c5RunSet c5RunSet then
        some ((killedTrivialFailKeys c5RunSet c5RunSet).count "C#t3")
      else none) :=
  c5_test_impact c5RunSet c5Summary c5_summary_value "C#t3"

/-! ### C6 -/

theorem lookupA_mem {α : Type} :
    ∀ (d : List (String × α)) (k : String) (v : α),
      lookupA d k = some v → ∃ e, e ∈ d ∧ e.1 = k ∧ e.2 = v
  | [], k, v, h => by cases h
  | a :: rest, k, v, h => by
    by_cases ha : a.1 = k
    · rw [lookupA, if_pos (by simpa using ha)] at h
      injection h with h
      exact ⟨a, List.mem_cons_self a rest, ha, h⟩
    · rw [lookupA, if_neg (by simpa using ha)] at h
      obtain ⟨e, he, hk, hv⟩ := lookupA_mem rest k v h
      exact ⟨e, List.mem_cons_of_mem a he, hk, hv⟩

theorem lookupA_eq_none_ne {α : Type} :
    ∀ (d : List (String × α)) (k : String),
      lookupA d k = none → ∀ e ∈ d, e.1 ≠ k
  | [], _, _, e, he => by cases he
  | a :: rest, k, h, e, he => by
    by_cases ha : a.1 = k
    · rw [lookupA, if_pos (by simpa using ha)] at h
      cases h
    · rw [lookupA, if_neg (by simpa using ha)] at h
      rcases List.mem_cons.mp he with rfl | he'
      · exact ha
      · exact lookupA_eq_none_ne rest k h e he'

theorem lookupA_nodup_mem {α : Type} :
    ∀ (d : List (String × α)), (d.map Prod.fst).Nodup →
      ∀ e ∈ d, lookupA d e.1 = some e.2
  | [], _, e, he => by cases he
  | a :: rest, hnd, e, he => by
    rw [List.map_cons, List.nodup_cons] at hnd
    rcases List.mem_cons.mp he with rfl | he'
    · rw [lookupA, if_pos (by simp)]
    · have hne : a.1 ≠ e.1 := by
        intro hcon
        exact hnd.1 (hcon ▸ List.mem_map.mpr ⟨e, he', rfl⟩)
      rw [lookupA, if_neg (by simpa using hne)]
      exact lookupA_nodup_mem rest hnd.2 e he'

/-- C6 (amended): with the baseline absent, `get_mutation_summary` aborts
with `ValueError("Original test results not found")` exactly when some
mutant entry's document has `compiled == True` (classification of such a
mutant reaches the baseline lookup); when every mutant entry failed to
compile, every mutant is classified `STILLBORN` before the baseline is
consulted and a summary is returned with no error at all. -/
theorem c6_missing_baseline (rs : RunSet)
    (hno : getRun rs ORIGINAL_SRC_TEST_RESULTS_NAME = none) :
    ((∀ e ∈ rs, e.2.compiled = false) →
      ∃ s, get_mutation_summary rs = Except.ok s) ∧
    ((rs.map Prod.fst).Nodup → (∃ e ∈ rs, e.2.compiled = true) →
      get_mutation_summary rs = Except.error "Original test results not found") := by
  constructor
  · intro hall
    have heval : ∀ k, evaluate_mutant k rs = Except.ok MutantStatus.STILLBORN := by
      intro k
      cases hg : getRun rs k with
      | none => rw [evaluate_mutant, hg]
      | some m =>
        obtain ⟨e, he, _, hv⟩ := lookupA_mem rs k m hg
        have hcF : m.compiled = false := hv ▸ hall e he
        rw [evaluate_mutant, hg]
        simp [hcF]
    have hloop : ∀ (l : List (String × TestSuiteResult)) (acc : SummaryAcc),
        ∃ acc', summaryLoop rs l acc = Except.ok acc' := by
      intro l
      induction l with
      | nil => intro acc; exact ⟨acc, rfl⟩
      | cons e rest ih =>
        intro acc
        by_cases he : e.1 = ORIGINAL_SRC_TEST_RESULTS_NAME
        · rw [summaryLoop, if_pos he]
          exact ih acc
        · rw [summaryLoop, if_neg he, heval e.1]
          exact ih (summaryStep acc e MutantStatus.STILLBORN)
    obtain ⟨acc, hacc⟩ := hloop rs SummaryAcc.init
    rw [get_mutation_summary, hacc]
    exact ⟨_, rfl⟩
  · intro hnd ⟨w, hw, hwc⟩
    have hne : ∀ e ∈ rs, e.1 ≠ ORIGINAL_SRC_TEST_RESULTS_NAME :=
      lookupA_eq_none_ne rs ORIGINAL_SRC_TEST_RESULTS_NAME hno
    have heval_c : ∀ e ∈ rs, e.2.compiled = true →
        evaluate_mutant e.1 rs = Except.error "Original test results not found" := by
      intro e he hc
      have hg : getRun rs e.1 = some e.2 := lookupA_nodup_mem rs hnd e he
      rw [evaluate_mutant, hg]
      simp only [hc]
      rw [if_neg (by simp)]
      rw [show getRun rs ORIGINAL_SRC_TEST_RESULTS_NAME = none from hno]
    have heval_nc : ∀ e ∈ rs, e.2.compiled = false →
        evaluate_mutant e.1 rs = Except.ok MutantStatus.STILLBORN := by
      intro e he hc
      have hg : getRun rs e.1 = some e.2 := lookupA_nodup_mem rs hnd e he
      rw [evaluate_mutant, hg]
      simp [hc]
    have hloop : ∀ (l : List (String × TestSuiteResult)), (∀ e ∈ l, e ∈ rs) →
        (∃ e, e ∈ l ∧ e.2.compiled = true) → ∀ acc,
        summaryLoop rs l acc = Except.error "Original test results not found" := by
      intro l
      induction l with
      | nil => rintro _ ⟨e, he, _⟩ acc; cases he
      | cons e rest ih =>
        rintro hsub ⟨x, hx, hxc⟩ acc
        have hers : e ∈ rs := hsub e (List.mem_cons_self e rest)
        rw [summaryLoop, if_neg (hne e hers)]
        cases hc : e.2.compiled with
        | true => rw [heval_c e hers hc]
        | false =>
          rw [heval_nc e hers hc]
          rcases List.mem_cons.mp hx with rfl | hx'
          · rw [hc] at hxc; cases hxc
          · exact ih (fun y hy => hsub y (List.mem_cons_of_mem e hy)) ⟨x, hx', hxc⟩ _
    have hl := hloop rs (fun y hy => hy) ⟨w, hw, hwc⟩ SummaryAcc.init
    rw [get_mutation_summary, hl]

/-- A run set with one uncompiled mutant and no baseline. -/
def c6RunSet : RunSet := [("M1", ⟨"t", [], false, some "javac"⟩)]

/-- The summary the code computes for `c6RunSet`. -/
def c6Summary : MutationSummary :=
  { total_mutants := 0
    live := 0
    killed := 0
    stillborn := 1
    trivial := 0
    mutation_score := 0
    test_impact := []
    mutation_status := [("M1", "stillborn")] }

/-- A run set with one *compiled* mutant and no baseline. -/
def c6CompiledRunSet : RunSet :=
  [("M1", ⟨"t", [⟨"C", 1, 0, 1, [⟨"a", "idA", true, none⟩]⟩], true, none⟩)]

/-- C6 is false as stated: `c6RunSet` contains a mutant and no baseline
entry, yet `get_mutation_summary` silently returns a summary instead of
aborting (the `ValueError` is raised only when a compiled mutant reaches
the baseline comparison). -/
theorem c6_counterexample :
    getRun c6RunSet ORIGINAL_SRC_TEST_RESULTS_NAME = none ∧
    0 < c6RunSet.length ∧
    get_mutation_summary c6RunSet = Except.ok c6Summary := by
  refine ⟨by decide, by decide, by decide⟩

/-- Witness for the amended C6: with a compiled mutant and no baseline,
`get_mutation_summary` does abort with the `ValueError` message. -/
theorem c6_missing_baseline_witness :
    get_mutation_summary c6CompiledRunSet =
      Except.error "Original test results not found" :=
  (c6_missing_baseline c6CompiledRunSet (by decide)).2 (by decide)
    ⟨("M1", ⟨"t", [⟨"C", 1, 0, 1, [⟨"a", "idA", true, none⟩]⟩], true, none⟩),
      by decide, rfl⟩

/-! ### C7 -/

theorem mutationsLoop_ok (env : String → MutantRunEnv) :
    ∀ (l : List Mutation) (store : Store),
      (∀ m ∈ l, (env m.id).copytree = Except.ok () ∧
        ∃ doc, (env m.id).run.testExec = Except.ok doc) →
      (mutationsLoop env l store).2 = none ∧
      (∀ m ∈ l, (lookupA (mutationsLoop env l store).1 m.id).isSome = true) ∧
      (∀ k, (lookupA store k).isSome = true →
        (lookupA (mutationsLoop env l store).1 k).isSome = true)
  | [], store, _ => by
    refine ⟨rfl, ?_, fun k hk => hk⟩
    intro m hm
    cases hm
  | m :: rest, store, h => by
    obtain ⟨hcopy, doc, hdoc⟩ := h m (List.mem_cons_self m rest)
    have hproc : ∃ v, processMutation env store m = Except.ok (setA store m.id v) := by
      rw [processMutation, hcopy, run_test_runner]
      cases hc : (env m.id).run.compile with
      | error stderr => exact ⟨_, rfl⟩
      | ok u => rw [hdoc]; exact ⟨doc, rfl⟩
    obtain ⟨v, hv⟩ := hproc
    have hloop : mutationsLoop env (m :: rest) store =
        mutationsLoop env rest (setA store m.id v) := by
      rw [mutationsLoop, hv]
    obtain ⟨hn, hall, hmono⟩ :=
      mutationsLoop_ok env rest (setA store m.id v)
        (fun x hx => h x (List.mem_cons_of_mem m hx))
    rw [hloop]
    refine ⟨hn, ?_, ?_⟩
    · intro x hx
      rcases List.mem_cons.mp hx with rfl | hx'
      · exact hmono x.id (by rw [lookupA_setA_self]; rfl)
      · exact hall x hx'
    · intro k hk
      exact hmono k (isSome_lookupA_setA store m.id k v hk)

theorem apply_loop_ok (env : String → MutantRunEnv) :
    ∀ (mrs : List MutationResult) (store : Store),
      (∀ mr ∈ mrs, ∀ m ∈ mr.mutations, (env m.id).copytree = Except.ok () ∧
        ∃ doc, (env m.id).run.testExec = Except.ok doc) →
      (apply_and_test_mutations env mrs store).2 = none ∧
      (∀ mr ∈ mrs, ∀ m ∈ mr.mutations,
        (lookupA (apply_and_test_mutations env mrs store).1 m.id).isSome = true) ∧
      (∀ k, (lookupA store k).isSome = true →
        (lookupA (apply_and_test_mutations env mrs store).1 k).isSome = true)
  | [], store, _ => by
    refine ⟨rfl, ?_, fun k hk => hk⟩
    intro mr hmr
    cases hmr
  | mr :: rest, store, h => by
    obtain ⟨hn1, hall1, hmono1⟩ :=
      mutationsLoop_ok env mr.mutations store (h mr (List.mem_cons_self mr rest))
    have hsplit : apply_and_test_mutations env (mr :: rest) store =
        apply_and_test_mutations env rest (mutationsLoop env mr.mutations store).1 := by
      rw [apply_and_test_mutations]
      rcases hml : mutationsLoop env mr.mutations store with ⟨store2, err⟩
      rw [hml] at hn1
      simp only at hn1
      subst hn1
      rfl
    obtain ⟨hn2, hall2, hmono2⟩ :=
      apply_loop_ok env rest (mutationsLoop env mr.mutations store).1
        (fun x hx => h x (List.mem_cons_of_mem mr hx))
    rw [hsplit]
    refine ⟨hn2, ?_, ?_⟩
    · intro x hx m hm
      rcases List.mem_cons.mp hx with rfl | hx'
      · exact hmono2 m.id (hall1 m hm)
      · exact hall2 x hx' m hm
    · intro k hk
      exact hmono2 k (hmono1 k hk)

/-- C7 (amended): a *compile* failure confined to one mutant's run never
aborts processing of the remaining mutants — `run_test_runner` records it
as a `compiled == False` document and `apply_and_test_mutations` moves on
to the next mutant, so when every workspace copy and every test execution
succeed the batch finishes with no exception and a persisted document for
every mutant, whatever the compile outcomes.  (Workspace I/O errors and
test-execution failures, by contrast, propagate and abort the batch —
see the counterexample.) -/
theorem c7_compile_failures_do_not_abort (env : String → MutantRunEnv)
    (mrs : List MutationResult) (store : Store)
    (h : ∀ mr ∈ mrs, ∀ m ∈ mr.mutations, (env m.id).copytree = Except.ok () ∧
      ∃ doc, (env m.id).run.testExec = Except.ok doc) :
    (apply_and_test_mutations env mrs store).2 = none ∧
    ∀ mr ∈ mrs, ∀ m ∈ mr.mutations,
      (lookupA (apply_and_test_mutations env mrs store).1 m.id).isSome = true := by
  obtain ⟨hn, hall, _⟩ := apply_loop_ok env mrs store h
  exact ⟨hn, hall⟩

/-- A healthy result document used by the C7 scenarios. -/
def c7Doc : TestSuiteResult :=
  { timestamp := "ts"
    test_classes := [⟨"C", 1, 0, 1, [⟨"a", "idA", true, none⟩]⟩]
    compiled := true
    compile_error := none }

/-- One mutation per id, as the generator would emit it. -/
def c7Mutation (i : String) : Mutation :=
  { id := i
    operator := "AOR"
    mutated_code := "class A {}"
    location := ⟨1, none, none⟩
    explanation := "why" }

/-- The batch: one source file with mutants `M1` and `M2`. -/
def c7Batch : List MutationResult :=
  [⟨"A.java", 2, [c7Mutation "M1", c7Mutation "M2"]⟩]

/-- Environment in which `M1`'s test execution crashes (everything else,
including everything about `M2`, succeeds). -/
def c7CrashEnv : String → MutantRunEnv := fun i =>
  if i = "M1" then ⟨Except.ok (), ⟨"ts", Except.ok (), Except.error "runner crashed"⟩⟩
  else ⟨Except.ok (), ⟨"ts", Except.ok (), Except.ok c7Doc⟩⟩

/-- Environment in which `M1` merely fails to compile. -/
def c7CompileFailEnv : String → MutantRunEnv := fun i =>
  if i = "M1" then ⟨Except.ok (), ⟨"ts", Except.error "javac err", Except.ok c7Doc⟩⟩
  else ⟨Except.ok (), ⟨"ts", Except.ok (), Except.ok c7Doc⟩⟩

/-- C7 is false as stated: `M1`'s failure is confined to its own run (its
workspace copy and compilation succeed; `M2`'s run would succeed
entirely), yet the uncaught test-execution exception aborts the batch —
`apply_and_test_mutations` stops with the error and `M2` is never
processed (no document for `M2` is ever persisted). -/
theorem c7_counterexample :
    (c7CrashEnv "M1").copytree = Except.ok () ∧
    (c7CrashEnv "M1").run.compile = Except.ok () ∧
    (c7CrashEnv "M2").copytree = Except.ok () ∧
    (c7CrashEnv "M2").run.testExec = Except.ok c7Doc ∧
    apply_and_test_mutations c7CrashEnv c7Batch [] =
      ([], some "Test execution failed:\nrunner crashed") ∧
    lookupA (apply_and_test_mutations c7CrashEnv c7Batch []).1 "M2" = none :=
  ⟨rfl, rfl, rfl, rfl, by decide, by decide⟩

/-- Witness for the amended C7: with `M1` failing to compile and nothing
else going wrong, the batch finishes without an exception and both
mutants have persisted documents. -/
theorem c7_compile_failures_do_not_abort_witness :
    (apply_and_test_mutations c7CompileFailEnv c7Batch []).2 = none ∧
    ∀ mr ∈ c7Batch, ∀ m ∈ mr.mutations,
      (lookupA (apply_and_test_mutations c7CompileFailEnv c7Batch []).1 m.id).isSome = true :=
  c7_compile_failures_do_not_abort c7CompileFailEnv c7Batch [] (by
    intro mr hmr m hm
    simp only [c7Batch, List.mem_singleton] at hmr
    subst hmr
    simp only [List.mem_cons, List.not_mem_nil, or_false] at hm
    rcases hm with rfl | rfl
    · exact ⟨rfl, ⟨c7Doc, rfl⟩⟩
    · exact ⟨rfl, ⟨c7Doc, rfl⟩⟩)

/-! ### C8 -/

/-- C8 (amended): whenever the compiler exits non-zero, `run_test_runner`
persists, before returning and under the run's filename, a result
document with `compiled = False`, an empty `test_classes` list and
`compile_error` equal to the captured compiler stderr wrapped in two
`Compilation failed` prefixes (`"Compilation failed: Compilation
failed:\n" ++ stderr` — not the bare stderr), and attempts no test
execution: the outcome is the same whatever the test process would have
done. -/
theorem c8_compile_failure_record (env : RunEnv) (store : Store) (fn stderr : String)
    (hc : env.compile = Except.error stderr) :
    run_test_runner env store fn =
      Except.ok (setA store fn
        ⟨env.timestamp, [], false,
          some ("Compilation failed: " ++ ("Compilation failed:\n" ++ stderr))⟩) ∧
    lookupA (setA store fn
        ⟨env.timestamp, [], false,
          some ("Compilation failed: " ++ ("Compilation failed:\n" ++ stderr))⟩) fn =
      some ⟨env.timestamp, [], false,
        some ("Compilation failed: " ++ ("Compilation failed:\n" ++ stderr))⟩ ∧
    ∀ te : Except String TestSuiteResult,
      run_test_runner { env with testExec := te } store fn =
        run_test_runner env store fn := by
  obtain ⟨ts, cp, tx⟩ := env
  have hcp : cp = Except.error stderr := hc
  subst hcp
  exact ⟨rfl, lookupA_setA_self store fn _, fun te => rfl⟩

/-- A well-formed result document (irrelevant here: compilation fails
before the test process could deposit it). -/
def c8Doc : TestSuiteResult :=
  { timestamp := "ts"
    test_classes := [⟨"C", 1, 0, 1, [⟨"a", "idA", true, none⟩]⟩]
    compiled := true
    compile_error := none }

/-- A pipeline run in which `javac` exits non-zero with stderr `"err"`. -/
def c8Env : RunEnv := ⟨"ts", Except.error "err", Except.ok c8Doc⟩

/-- C8 is false as stated: the persisted `compile_error` is not the
captured stderr `"err"` but that stderr wrapped twice — once by the
`Exception` raised in `_compile_code`, once by the handler in
`run_test_runner`. -/
theorem c8_counterexample :
    run_test_runner c8Env [] "M1" =
      Except.ok
        [("M1", ⟨"ts", [], false, some "Compilation failed: Compilation failed:\nerr"⟩)] ∧
    ¬ ("Compilation failed: Compilation failed:\nerr" = "err") :=
  ⟨by decide, by decide⟩

/-- Witness for the amended C8 at `c8Env`. -/
theorem c8_compile_failure_record_witness :
    run_test_runner c8Env [] "M1" =
      Except.ok (setA [] "M1"
        (⟨c8Env.timestamp, [], false,
          some ("Compilation failed: " ++ ("Compilation failed:\n" ++ "err"))⟩ :
          TestSuiteResult)) ∧
    lookupA (setA [] "M1"
        (⟨c8Env.timestamp, [], false,
          some ("Compilation failed: " ++ ("Compilation failed:\n" ++ "err"))⟩ :
          TestSuiteResult)) "M1" =
      some ⟨c8Env.timestamp, [], false,
        some ("Compilation failed: " ++ ("Compilation failed:\n" ++ "err"))⟩ ∧
    ∀ te : Except String TestSuiteResult,
      run_test_runner { c8Env with testExec := te } [] "M1" =
        run_test_runner c8Env [] "M1" :=
  c8_compile_failure_record c8Env [] "M1" "err" rfl

/-! ### C9 and C10: the workspace model -/

theorem os_path_join_eq_empty_iff (a b : String) :
    os_path_join a b = "" ↔ (a = "" ∧ b = "") := by
  rw [os_path_join]
  by_cases hb : startsWithSep b = true
  · rw [if_pos hb]
    constructor
    · intro h; subst h; exact absurd hb (by decide)
    · rintro ⟨_, rfl⟩; exact absurd hb (by decide)
  · rw [if_neg hb]
    by_cases ha : a = ""
    · rw [if_pos ha]
      simp [ha]
    · rw [if_neg ha]
      have happend : ∀ (x y : String), x ≠ "" → x ++ y ≠ "" := by
        intro x y hx hcon
        have hdata : x.data ++ y.data = [] := by
          have := congrArg String.data hcon
          simpa [String.data_append] using this
        exact hx (String.ext (List.append_eq_nil.mp hdata).1)
      by_cases hae : endsWithSep a = true
      · rw [if_pos hae]
        constructor
        · intro h; exact absurd h (happend a b ha)
        · rintro ⟨rfl, _⟩; exact absurd rfl ha
      · rw [if_neg hae]
        constructor
        · intro h; exact absurd h (happend (a ++ "/") b (happend a "/" ha))
        · rintro ⟨rfl, _⟩; exact absurd rfl ha

theorem string_append_right_inj (s t u : String) : s ++ t = s ++ u ↔ t = u := by
  constructor
  · intro h
    apply String.ext
    have := congrArg String.data h
    simp only [String.data_append] at this
    exact List.append_cancel_left this
  · intro h; rw [h]

theorem os_path_join_right_inj (d : String) (hd : d ≠ "") (b c : String)
    (hb : startsWithSep b = false) (hc : startsWithSep c = false) :
    os_path_join d b = os_path_join d c ↔ b = c := by
  have hjoin : ∀ x : String, startsWithSep x = false →
      os_path_join d x = (if endsWithSep d = true then d ++ x else d ++ "/" ++ x) := by
    intro x hx
    rw [os_path_join, if_neg (by rw [hx]; exact Bool.false_ne_true), if_neg hd]
  rw [hjoin b hb, hjoin c hc]
  by_cases hae : endsWithSep d = true
  · rw [if_pos hae, if_pos hae]
    exact string_append_right_inj d b c
  · rw [if_neg hae, if_neg hae]
    exact string_append_right_inj (d ++ "/") b c

theorem lookupA_copied_tree (d : String) (hd : d ≠ "") :
    ∀ (tree : FileTree) (p : String), startsWithSep p = false →
      (∀ e ∈ tree, startsWithSep e.1 = false) →
      lookupA (tree.map (fun e => (os_path_join d e.1, e.2))) (os_path_join d p) =
        lookupA tree p
  | [], p, _, _ => rfl
  | a :: rest, p, hp, htree => by
    have ha : startsWithSep a.1 = false := htree a (List.mem_cons_self a rest)
    rw [List.map_cons, lookupA, lookupA]
    by_cases h : a.1 = p
    · rw [if_pos (by simpa using congrArg (os_path_join d) h), if_pos (by simpa using h)]
    · have hne : os_path_join d a.1 ≠ os_path_join d p := fun hcon =>
        h ((os_path_join_right_inj d hd a.1 p ha hp).mp hcon)
      rw [if_neg (by simpa using hne), if_neg (by simpa using h)]
      exact lookupA_copied_tree d hd rest p hp
        (fun e he => htree e (List.mem_cons_of_mem a he))

theorem apply_single_mutation_ok (mutation_dir : String) (original_tree : FileTree)
    (mutation : Mutation) (rel_path : String)
    (hfp : os_path_join (os_path_join mutation_dir mutation.id) rel_path ≠ "") :
    apply_single_mutation mutation_dir original_tree false mutation rel_path =
      Except.ok (setA
        (original_tree.map (fun e =>
          (os_path_join (os_path_join mutation_dir mutation.id) e.1, e.2)))
        (os_path_join (os_path_join mutation_dir mutation.id) rel_path)
        mutation.mutated_code) := by
  rw [apply_single_mutation]
  simp only [Bool.false_eq_true, if_false]
  rw [if_pos hfp]

/-- C9: after a successful workspace creation the file at
`os.path.join(mutant_dir, rel_path)` holds exactly
`mutation.mutated_code`, every other (relative) path resolves to the
byte-identical baseline content (present in the workspace iff present in
the baseline), and when the workspace directory already exists the
operation raises `FileExistsError` instead of silently overwriting. -/
theorem c9_workspace_frame (mutation_dir : String) (original_tree : FileTree)
    (mutation : Mutation) (rel_path : String)
    (hmd : os_path_join mutation_dir mutation.id ≠ "")
    (htree : ∀ e ∈ original_tree, startsWithSep e.1 = false)
    (hrp : startsWithSep rel_path = false) :
    (apply_single_mutation mutation_dir original_tree true mutation rel_path =
      Except.error ("FileExistsError: " ++ os_path_join mutation_dir mutation.id)) ∧
    ∃ ws, apply_single_mutation mutation_dir original_tree false mutation rel_path =
        Except.ok ws ∧
      lookupA ws (os_path_join (os_path_join mutation_dir mutation.id) rel_path) =
        some mutation.mutated_code ∧
      ∀ p, p ≠ rel_path → startsWithSep p = false →
        lookupA ws (os_path_join (os_path_join mutation_dir mutation.id) p) =
          lookupA original_tree p := by
  constructor
  · rfl
  · have hfp : os_path_join (os_path_join mutation_dir mutation.id) rel_path ≠ "" := by
      intro hcon
      exact hmd ((os_path_join_eq_empty_iff _ _).mp hcon).1
    refine ⟨_, apply_single_mutation_ok mutation_dir original_tree mutation rel_path hfp,
      lookupA_setA_self _ _ _, ?_⟩
    intro p hpne hpsw
    have hne : os_path_join (os_path_join mutation_dir mutation.id) p ≠
        os_path_join (os_path_join mutation_dir mutation.id) rel_path := fun hcon =>
      hpne ((os_path_join_right_inj _ hmd p rel_path hpsw hrp).mp hcon)
    rw [lookupA_setA_ne _ _ _ _ hne]
    exact lookupA_copied_tree _ hmd original_tree p hpsw htree

/-- C10: when `rel_path` names no file of the baseline tree, workspace
creation still succeeds and creates a brand-new file with the mutated
text at the joined path; the `if file_path:` guard holds (the joined path
string is non-empty whenever the workspace directory name is), so the
file-not-found error branch is never taken and no baseline-existence
check ever happens. -/
theorem c10_no_existence_check (mutation_dir : String) (original_tree : FileTree)
    (mutation : Mutation) (rel_path : String)
    (_hnb : lookupA original_tree rel_path = none)
    (hmd : os_path_join mutation_dir mutation.id ≠ "") :
    os_path_join (os_path_join mutation_dir mutation.id) rel_path ≠ "" ∧
    ∃ ws, apply_single_mutation mutation_dir original_tree false mutation rel_path =
        Except.ok ws ∧
      lookupA ws (os_path_join (os_path_join mutation_dir mutation.id) rel_path) =
        some mutation.mutated_code := by
  have hfp : os_path_join (os_path_join mutation_dir mutation.id) rel_path ≠ "" := by
    intro hcon
    exact hmd ((os_path_join_eq_empty_iff _ _).mp hcon).1
  refine ⟨hfp, _, apply_single_mutation_ok mutation_dir original_tree mutation rel_path hfp,
    lookupA_setA_self _ _ _⟩

/-- The baseline tree used by the C9/C10 witnesses. -/
def c9Tree : FileTree := [("src/A.java", "class A {}"), ("src/B.java", "class B {}")]

/-- The mutant applied in the C9/C10 witnesses. -/
def c9Mutation : Mutation :=
  { id := "M1"
    operator := "AOR"
    mutated_code := "class A { int x = 1 - 2; }"
    location := ⟨3, none, none⟩
    explanation := "swap operator" }

/-- Witness for C9 at a concrete tree and mutant. -/
theorem c9_workspace_frame_witness :
    (apply_single_mutation "mutations" c9Tree true c9Mutation "src/A.java" =
      Except.error ("FileExistsError: " ++ os_path_join "mutations" c9Mutation.id)) ∧
    ∃ ws, apply_single_mutation "mutations" c9Tree false c9Mutation "src/A.java" =
        Except.ok ws ∧
      lookupA ws (os_path_join (os_path_join "mutations" c9Mutation.id) "src/A.java") =
        some c9Mutation.mutated_code ∧
      ∀ p, p ≠ "src/A.java" → startsWithSep p = false →
        lookupA ws (os_path_join (os_path_join "mutations" c9Mutation.id) p) =
          lookupA c9Tree p :=
  c9_workspace_frame "mutations" c9Tree c9Mutation "src/A.java" (by decide) (by decide)
    (by decide)

/-- Witness for C10: `src/New.java` names no baseline file, yet the
workspace gains it with the mutated text. -/
theorem c10_no_existence_check_witness :
    os_path_join (os_path_join "mutations" c9Mutation.id) "src/New.java" ≠ "" ∧
    ∃ ws, apply_single_mutation "mutations" c9Tree false c9Mutation "src/New.java" =
        Except.ok ws ∧
      lookupA ws (os_path_join (os_path_join "mutations" c9Mutation.id) "src/New.java") =
        some c9Mutation.mutated_code :=
  c10_no_existence_check "mutations" c9Tree c9Mutation "src/New.java" (by decide) (by decide)

end MutationEngine
